import Mathlib

/-!
Shallow embedding of `src/ext/ruby_timeout_safe/ruby_timeout_safe.c`.

The extension exposes `RubyTimeoutSafe.timeout(seconds)` which runs a Ruby
block under a watchdog pthread.  We model:

  * the argument coercion of `seconds` (lines 110-122): `NIL_P` maps nil
    to 0, `FIX2LONG` passes fixnums through, `NUM2LONG` coerces other
    numerics with truncation toward zero (semantics of the Ruby C API
    function `rb_num2long`) and raises for non-numerics / out-of-long
    values; negative results raise `ArgumentError`;
  * the per-invocation `struct timeout_data` (lines 42-47);
  * the watchdog `timeout_function` (lines 81-99): it waits until a flag
    is set or the deadline passes, and on `ETIMEDOUT` sets
    `timeout_occurred`; we record explicitly the list of signals it
    delivers to other threads (always empty in the source);
  * the SIGTERM/SIGINT handler `signal_handler` (lines 65-71), which sets
    `signal_received` when the registry (`global_timeout_data`) is
    published;
  * the ambient process state visible to a caller: the two signal
    dispositions and whether `global_timeout_data` is non-NULL;
  * the full control flow of `ruby_timeout_safe_timeout`
    (lines 110-196), with the scheduling nondeterminism (does each
    `sigaction` succeed, does `pthread_create` succeed, does the block
    return or raise, does the bounded wait hit `ETIMEDOUT` before
    observing a flag, is a SIGTERM/SIGINT delivered while the handlers
    are installed) packaged in an explicit `Schedule`.

`time_t` is a signed 64-bit integer; the deadline computation
`ts.tv_sec += data->timeout` (line 85) is modelled as wrapping 64-bit
addition (two's-complement wrap, the universal behaviour of the signed
overflow here).
-/

namespace RubyTimeoutSafe

/-- Smallest value of a 64-bit signed `long` / `time_t`. -/
def longMin : Int := -(2 ^ 63)

/-- Largest value of a 64-bit signed `long` / `time_t`. -/
def longMax : Int := 2 ^ 63 - 1

/-- Ruby values that can be passed as the `seconds` argument: nil, an
integer (Fixnum or Bignum), a Float (modelled as a rational), or a
non-numeric object. -/
inductive RubyValue where
  | vnil
  | vint (n : Int)
  | vfloat (q : ℚ)
  | vother
  deriving DecidableEq

/-- Errors raised by the Ruby numeric coercion `rb_num2long`. -/
inductive CoerceError where
  | typeError
  | rangeError
  deriving DecidableEq

/-- Truncation toward zero, the conversion C performs when casting a
floating-point value to an integer type: the floor of a nonnegative
value, the ceiling (written as minus the floor of the negation) of a
negative one. -/
def truncTowardZero (q : ℚ) : Int := if 0 ≤ q then q.floor else -((-q).floor)

instance : DecidableEq (Except CoerceError Int) := fun a b =>
  match a, b with
  | .error e₁, .error e₂ =>
      if h : e₁ = e₂ then .isTrue (by rw [h]) else .isFalse (by simp [h])
  | .error _, .ok _ => .isFalse (by simp)
  | .ok _, .error _ => .isFalse (by simp)
  | .ok n₁, .ok n₂ =>
      if h : n₁ = n₂ then .isTrue (by rw [h]) else .isFalse (by simp [h])

/-- Semantics of the Ruby C API function `NUM2LONG` (`rb_num2long`):
integers are passed through when they fit in a `long`, floats are
truncated toward zero (raising `RangeError` when out of `long` range),
and non-numeric values raise `TypeError`. -/
def num2long : RubyValue → Except CoerceError Int
  | .vnil => .error .typeError
  | .vint n => if n < longMin ∨ longMax < n then .error .rangeError else .ok n
  | .vfloat q =>
      if truncTowardZero q < longMin ∨ longMax < truncTowardZero q then
        .error .rangeError
      else .ok (truncTowardZero q)
  | .vother => .error .typeError

/-- Lines 111-118 of the source: `NIL_P(seconds)` yields 0, `FIXNUM_P`
(values fitting in 62 bits plus sign) go through `FIX2LONG`, everything
else through `NUM2LONG`. -/
def coerce_timeout : RubyValue → Except CoerceError Int
  | .vnil => .ok 0
  | .vint n =>
      if -(2 ^ 62) ≤ n ∧ n ≤ 2 ^ 62 - 1 then .ok n else num2long (.vint n)
  | .vfloat q => num2long (.vfloat q)
  | .vother => num2long .vother

/-- Wrap an integer into the two's-complement 64-bit range
[-2^63, 2^63). -/
def wrap64 (n : Int) : Int := (n + 2 ^ 63) % 2 ^ 64 - 2 ^ 63

/-- Lines 84-85 of the source: `clock_gettime` fills `ts` with the
current time and then `ts.tv_sec += data->timeout` adds the relative
duration with ordinary (wrapping) 64-bit signed arithmetic. -/
def compute_deadline (now timeout : Int) : Int := wrap64 (now + timeout)

/-- The `struct timeout_data` of lines 42-47. -/
structure TimeoutData where
  timeout : Int
  timeout_occurred : Bool
  block_finished : Bool
  signal_received : Bool
  deriving DecidableEq

/-- A signal sent to a specific thread (as `pthread_kill` would); the
watchdog of the source never sends one, and this type records what it
would send if it did. -/
inductive SignalDelivery where
  | toThread (sig : Nat)
  deriving DecidableEq

/-- The watchdog loop of `timeout_function` (lines 87-97): while none of
the three flags is set, wait on the condition variable with the absolute
deadline; `expired` abstracts whether that bounded wait returned
`ETIMEDOUT` before the loop observed a flag, in which case
`timeout_occurred` is set and the loop breaks.  The second component is
the list of signals the watchdog delivers to other threads: the source
contains no such delivery, so it is `[]` on every path. -/
def timeout_function (expired : Bool) (d : TimeoutData) :
    TimeoutData × List SignalDelivery :=
  if d.block_finished || d.timeout_occurred || d.signal_received then (d, [])
  else if expired then ({ d with timeout_occurred := true }, [])
  else (d, [])

/-- The SIGTERM/SIGINT handler of lines 65-71: under `global_data_mutex`
it sets `signal_received` when `global_timeout_data` is published, and
is a no-op otherwise. -/
def signal_handler (published : Bool) (d : TimeoutData) : TimeoutData :=
  if published then { d with signal_received := true } else d

/-- A signal disposition: either the handler installed by the extension
(`signal_handler`) or any other disposition, with distinct prior
dispositions told apart by a tag. -/
inductive Disposition where
  | extHandler
  | other (tag : Nat)
  deriving DecidableEq

/-- Ambient process state visible across the call: the SIGTERM and
SIGINT dispositions and whether `global_timeout_data` is non-NULL. -/
structure SysState where
  sigterm : Disposition
  sigint : Disposition
  registry : Bool
  deriving DecidableEq

/-- What the protected block (`rb_protect(rb_yield, ...)`, line 163)
produces: a value (state 0) or a raised exception with a non-zero jump
tag. -/
inductive BlockResult where
  | ok (v : RubyValue)
  | raised (tag : Nat)
  deriving DecidableEq

/-- The scheduling nondeterminism of one invocation: whether each
`sigaction` installation succeeds (lines 140-141), whether
`pthread_create` succeeds (line 150), what the block produces, whether
the watchdog's bounded wait hit `ETIMEDOUT` before observing a flag,
and whether a SIGTERM/SIGINT was delivered while the handlers were
installed and the registry published. -/
structure Schedule where
  sigterm_install_ok : Bool
  sigint_install_ok : Bool
  thread_create_ok : Bool
  block : BlockResult
  watchdog_expires : Bool
  signal_during_run : Bool
  deriving DecidableEq

/-- The outcome surfaced to the Ruby caller. -/
inductive Outcome where
  | success (v : RubyValue)
  | argError
  | coerceError (e : CoerceError)
  | sysFail
  | threadError
  | timeoutError
  | jumpTag (tag : Nat)
  deriving DecidableEq

/-- Result of one invocation: the surfaced outcome, the ambient process
state after the call returns or raises, and whether a watchdog thread
was spawned. -/
structure RunResult where
  outcome : Outcome
  state : SysState
  threadSpawned : Bool
  deriving DecidableEq

/-- Lines 120-196 of `ruby_timeout_safe_timeout`, after the `seconds`
argument has been coerced: validate the timeout, publish the registry,
install both handlers (the source's short-circuit `||` means a SIGTERM
failure skips the SIGINT call, and the failure branch clears the
registry without restoring any disposition), spawn the watchdog (on
failure restoring both dispositions and clearing the registry), run the
block, set `block_finished`, wake and join the watchdog, restore both
dispositions, clear the registry, then raise `Timeout::Error` if
`timeout_occurred || signal_received`, else re-raise the block's
exception via `rb_jump_tag`, else return the block's value.  The flags
observed after the join are obtained by running `signal_handler` (when
the schedule delivers a signal) and `timeout_function` on the
invocation's `timeout_data`. -/
def run_with_timeout (sch : Schedule) (init : SysState)
    (t : Except CoerceError Int) : RunResult :=
  match t with
  | .error e => ⟨.coerceError e, init, false⟩
  | .ok timeout =>
    if timeout < 0 then
      ⟨.argError, init, false⟩
    else
      let s1 : SysState := { init with registry := true }
      if sch.sigterm_install_ok then
        let s2 : SysState := { s1 with sigterm := .extHandler }
        if sch.sigint_install_ok then
          if sch.thread_create_ok then
            let data0 : TimeoutData := ⟨timeout, false, false, false⟩
            let data1 : TimeoutData :=
              if sch.signal_during_run then signal_handler true data0 else data0
            let dataJ : TimeoutData :=
              (timeout_function sch.watchdog_expires data1).1
            let s4 : SysState :=
              ⟨init.sigterm, init.sigint, false⟩
            if dataJ.timeout_occurred || dataJ.signal_received then
              ⟨.timeoutError, s4, true⟩
            else
              match sch.block with
              | .ok v => ⟨.success v, s4, true⟩
              | .raised tag => ⟨.jumpTag tag, s4, true⟩
          else
            ⟨.threadError, ⟨init.sigterm, init.sigint, false⟩, false⟩
        else
          ⟨.sysFail, { s2 with registry := false }, false⟩
      else
        ⟨.sysFail, { s1 with registry := false }, false⟩

/-- The public operation `RubyTimeoutSafe.timeout` (lines 110-196):
coerce the argument, then run. -/
def ruby_timeout_safe_timeout (sch : Schedule) (init : SysState)
    (seconds : RubyValue) : RunResult :=
  run_with_timeout sch init (coerce_timeout seconds)

/-- The `Rat.floor` function computes the integer floor. -/
lemma rat_floor_eq_floor (q : ℚ) : q.floor = ⌊q⌋ :=
  (Rat.floor_def' q).trans Rat.floor_def.symm

/-- Truncation toward zero sends the open unit interval to 0. -/
lemma trunc_eq_zero (q : ℚ) (h0 : 0 ≤ q) (h1 : q < 1) :
    truncTowardZero q = 0 := by
  unfold truncTowardZero
  rw [if_pos h0, rat_floor_eq_floor]
  exact Int.floor_eq_zero_iff.mpr (Set.mem_Ico.mpr ⟨h0, h1⟩)

/-- Evaluation of the main routine on the path where validation and the
whole setup succeed: the dispositions are restored and the registry
cleared, a watchdog thread was spawned, and the outcome is
`Timeout::Error` exactly when the watchdog expired or a signal was
received, otherwise the block's own result. -/
lemma run_ok_eval (sch : Schedule) (init : SysState) (t : Int) (ht : 0 ≤ t)
    (h1 : sch.sigterm_install_ok = true) (h2 : sch.sigint_install_ok = true)
    (h3 : sch.thread_create_ok = true) :
    run_with_timeout sch init (.ok t) =
      if sch.watchdog_expires || sch.signal_during_run then
        ⟨.timeoutError, ⟨init.sigterm, init.sigint, false⟩, true⟩
      else
        match sch.block with
        | .ok v => ⟨.success v, ⟨init.sigterm, init.sigint, false⟩, true⟩
        | .raised tag =>
            ⟨.jumpTag tag, ⟨init.sigterm, init.sigint, false⟩, true⟩ := by
  unfold run_with_timeout
  dsimp only
  rw [if_neg (not_lt.mpr ht)]
  simp only [h1, h2, h3, if_true]
  cases hw : sch.watchdog_expires <;> cases hs : sch.signal_during_run <;>
    simp [timeout_function, signal_handler]

/-- C1 counterexample: calling the operation with duration 0 does not
fail with `ArgumentError`: the validation at line 120 only rejects
negative values, so with a zero duration the block runs, its result is
returned, and a watchdog thread is spawned. -/
theorem C1_zero_accepted_counterexample :
    ruby_timeout_safe_timeout ⟨true, true, true, .ok (.vint 1), false, false⟩
        ⟨.other 0, .other 1, false⟩ (.vint 0)
      = ⟨.success (.vint 1), ⟨.other 0, .other 1, false⟩, true⟩ ∧
    Outcome.success (.vint 1) ≠ Outcome.argError := by decide

/-- C1 amended: only a negative (in-`long`-range) duration fails with
the invalid-argument failure, and then no thread is spawned and the
ambient state is untouched; a non-numeric duration fails during numeric
coercion (`TypeError`, not `ArgumentError`) with no thread spawned; a
zero duration is accepted (coerced to a zero-second deadline) and the
call runs the work and spawns a watchdog thread. -/
theorem C1_amended_validation (sch : Schedule) (init : SysState) (n : Int)
    (hlo : longMin ≤ n) (hneg : n < 0) :
    ruby_timeout_safe_timeout sch init (.vint n)
      = ⟨.argError, init, false⟩ ∧
    ruby_timeout_safe_timeout sch init .vother
      = ⟨.coerceError .typeError, init, false⟩ ∧
    coerce_timeout (.vint 0) = .ok 0 ∧
    (ruby_timeout_safe_timeout ⟨true, true, true, .ok (.vint 42), false, false⟩
        ⟨.other 0, .other 1, false⟩ (.vint 0)).threadSpawned = true := by
  refine ⟨?_, rfl, by decide, by decide⟩
  have hmax : (0 : Int) ≤ longMax := by decide
  have hc : coerce_timeout (.vint n) = .ok n := by
    unfold coerce_timeout num2long
    dsimp only
    by_cases hf : -(2 ^ 62) ≤ n ∧ n ≤ 2 ^ 62 - 1
    · rw [if_pos hf]
    · rw [if_neg hf, if_neg]
      push_neg
      exact ⟨hlo, le_trans hneg.le hmax⟩
  unfold ruby_timeout_safe_timeout
  rw [hc]
  unfold run_with_timeout
  dsimp only
  rw [if_pos hneg]

/-- C1 witness: the amended statement holds at the concrete negative
duration -1. -/
theorem C1_amended_validation_witness :
    longMin ≤ (-1 : Int) ∧ (-1 : Int) < 0 ∧
    (ruby_timeout_safe_timeout ⟨true, true, true, .ok (.vint 1), false, false⟩
        ⟨.other 0, .other 1, false⟩ (.vint (-1))
      = ⟨.argError, ⟨.other 0, .other 1, false⟩, false⟩ ∧
    ruby_timeout_safe_timeout ⟨true, true, true, .ok (.vint 1), false, false⟩
        ⟨.other 0, .other 1, false⟩ .vother
      = ⟨.coerceError .typeError, ⟨.other 0, .other 1, false⟩, false⟩ ∧
    coerce_timeout (.vint 0) = .ok 0 ∧
    (ruby_timeout_safe_timeout ⟨true, true, true, .ok (.vint 42), false, false⟩
        ⟨.other 0, .other 1, false⟩ (.vint 0)).threadSpawned = true) :=
  ⟨by decide, by decide,
    C1_amended_validation ⟨true, true, true, .ok (.vint 1), false, false⟩
      ⟨.other 0, .other 1, false⟩ (-1) (by decide) (by decide)⟩

/-- C2 counterexample: when the bounded wait hits `ETIMEDOUT`, the
watchdog of `timeout_function` (lines 88-96) sets `timeout_occurred`
and exits, and its list of signals delivered to the calling thread is
empty — it does not deliver any interruption signal, and no
interruption-signal handler exists that could raise at the interrupted
call site. -/
theorem C2_no_signal_delivered_counterexample :
    timeout_function true ⟨5, false, false, false⟩
      = (⟨5, true, false, false⟩, ([] : List SignalDelivery)) := by decide

/-- C2 amended: the watchdog is passive.  On every path it delivers no
signal to any thread; when the bounded wait expires with none of the
flags set it marks `timed_out` and exits; the timeout failure is raised
by the calling thread only after the work has returned and the watchdog
has been joined (the flag check at lines 185-188). -/
theorem C2_amended_passive_watchdog (expired : Bool) (d : TimeoutData)
    (sch : Schedule) (init : SysState) (seconds : RubyValue) (t : Int)
    (hc : coerce_timeout seconds = .ok t) (ht : 0 ≤ t)
    (h1 : sch.sigterm_install_ok = true) (h2 : sch.sigint_install_ok = true)
    (h3 : sch.thread_create_ok = true) (hexp : sch.watchdog_expires = true) :
    (timeout_function expired d).2 = [] ∧
    (d.block_finished = false → d.timeout_occurred = false →
      d.signal_received = false →
      (timeout_function true d).1.timeout_occurred = true) ∧
    (ruby_timeout_safe_timeout sch init seconds).outcome
      = .timeoutError := by
  refine ⟨?_, ?_, ?_⟩
  · unfold timeout_function
    split
    · rfl
    · split <;> rfl
  · intro hb hto hs
    simp [timeout_function, hb, hto, hs]
  · unfold ruby_timeout_safe_timeout
    rw [hc, run_ok_eval sch init t ht h1 h2 h3]
    simp [hexp]

/-- C2 witness: the amended statement holds for a concrete expired wait
and a concrete invocation whose watchdog expires. -/
theorem C2_amended_passive_watchdog_witness :
    (timeout_function true ⟨5, false, false, false⟩).2 = [] ∧
    ((⟨5, false, false, false⟩ : TimeoutData).block_finished = false →
      (⟨5, false, false, false⟩ : TimeoutData).timeout_occurred = false →
      (⟨5, false, false, false⟩ : TimeoutData).signal_received = false →
      (timeout_function true ⟨5, false, false, false⟩).1.timeout_occurred
        = true) ∧
    (ruby_timeout_safe_timeout ⟨true, true, true, .ok (.vint 1), true, false⟩
        ⟨.other 0, .other 1, false⟩ (.vint 5)).outcome = .timeoutError :=
  C2_amended_passive_watchdog true ⟨5, false, false, false⟩
    ⟨true, true, true, .ok (.vint 1), true, false⟩ ⟨.other 0, .other 1, false⟩
    (.vint 5) 5 (by decide) (by decide) rfl rfl rfl rfl

/-- C3: on any invocation that reaches the run phase (valid duration,
handlers installed, watchdog spawned), if by the time the watchdog is
joined the bounded wait had expired or an external signal had been
received, the call raises the single `Timeout::Error` ("execution
expired") failure — regardless of the block's result, including a block
that completed with a value (the schedule's `block` field is
unconstrained here); both flags are checked together after the join. -/
theorem C3_timeout_or_signal_wins (sch : Schedule) (init : SysState)
    (seconds : RubyValue) (t : Int)
    (hc : coerce_timeout seconds = .ok t) (ht : 0 ≤ t)
    (h1 : sch.sigterm_install_ok = true) (h2 : sch.sigint_install_ok = true)
    (h3 : sch.thread_create_ok = true)
    (h4 : sch.watchdog_expires = true ∨ sch.signal_during_run = true) :
    ruby_timeout_safe_timeout sch init seconds
      = ⟨.timeoutError, ⟨init.sigterm, init.sigint, false⟩, true⟩ := by
  unfold ruby_timeout_safe_timeout
  rw [hc, run_ok_eval sch init t ht h1 h2 h3]
  rcases h4 with h | h <;> simp [h]

/-- C3 witness: a block that returned a value still resolves to the
timeout failure when the watchdog expired. -/
theorem C3_timeout_or_signal_wins_witness :
    coerce_timeout (.vint 2) = .ok 2 ∧
    ruby_timeout_safe_timeout ⟨true, true, true, .ok (.vint 9), true, false⟩
        ⟨.other 0, .other 1, false⟩ (.vint 2)
      = ⟨.timeoutError, ⟨.other 0, .other 1, false⟩, true⟩ :=
  ⟨by decide,
    C3_timeout_or_signal_wins ⟨true, true, true, .ok (.vint 9), true, false⟩
      ⟨.other 0, .other 1, false⟩ (.vint 2) 2 (by decide) (by decide)
      rfl rfl rfl (Or.inl rfl)⟩

/-- C4: when the block raises (non-zero `rb_protect` state) and neither
`timeout_occurred` nor `signal_received` was set, the call re-raises the
block's own jump tag unchanged — after the handlers have been restored
to their prior dispositions and the registry cleared — and never turns
it into a timeout failure. -/
theorem C4_work_failure_preserved (sch : Schedule) (init : SysState)
    (seconds : RubyValue) (t : Int) (tag : Nat)
    (hc : coerce_timeout seconds = .ok t) (ht : 0 ≤ t)
    (h1 : sch.sigterm_install_ok = true) (h2 : sch.sigint_install_ok = true)
    (h3 : sch.thread_create_ok = true)
    (hb : sch.block = .raised tag)
    (hw : sch.watchdog_expires = false)
    (hs : sch.signal_during_run = false) :
    ruby_timeout_safe_timeout sch init seconds
      = ⟨.jumpTag tag, ⟨init.sigterm, init.sigint, false⟩, true⟩ := by
  unfold ruby_timeout_safe_timeout
  rw [hc, run_ok_eval sch init t ht h1 h2 h3, hw, hs, hb]
  rfl

/-- C4 witness: a concrete raising block propagates its own tag. -/
theorem C4_work_failure_preserved_witness :
    coerce_timeout (.vint 3) = .ok 3 ∧
    ruby_timeout_safe_timeout ⟨true, true, true, .raised 6, false, false⟩
        ⟨.other 0, .other 1, false⟩ (.vint 3)
      = ⟨.jumpTag 6, ⟨.other 0, .other 1, false⟩, true⟩ :=
  ⟨by decide,
    C4_work_failure_preserved ⟨true, true, true, .raised 6, false, false⟩
      ⟨.other 0, .other 1, false⟩ (.vint 3) 3 6 (by decide) (by decide)
      rfl rfl rfl rfl rfl rfl⟩

/-- C5: the claim fails on the source.  When `sigaction(SIGTERM, ...)`
succeeds but `sigaction(SIGINT, ...)` fails (lines 140-146), the failure
branch clears the registry, spawns no thread and raises the system
failure — as the claim says — but it does not restore the SIGTERM
disposition it has already replaced: after the call the SIGTERM
disposition is still the extension's handler, not the prior `other 0`.
The parallel `pthread_create` failure branch (lines 151-152) does
restore both handlers, which shows the restore was the intent. -/
theorem C5_sigterm_not_restored :
    ruby_timeout_safe_timeout ⟨true, false, true, .ok (.vint 1), false, false⟩
        ⟨.other 0, .other 1, false⟩ (.vint 5)
      = ⟨.sysFail, ⟨.extHandler, .other 1, false⟩, false⟩ ∧
    Disposition.extHandler ≠ .other 0 := by decide

/-- C6: whenever the invocation resolves to one of the four run
outcomes — success, the merged timeout/cancellation failure, or the
re-raise of the work's own failure — the SIGTERM and SIGINT
dispositions after the call are exactly the ones from before the call
and the registry no longer references the invocation's data. -/
theorem C6_cleanup_roundtrip (sch : Schedule) (init : SysState)
    (seconds : RubyValue)
    (h : (∃ v, (ruby_timeout_safe_timeout sch init seconds).outcome
            = .success v) ∨
         (ruby_timeout_safe_timeout sch init seconds).outcome
            = .timeoutError ∨
         (∃ tag, (ruby_timeout_safe_timeout sch init seconds).outcome
            = .jumpTag tag)) :
    (ruby_timeout_safe_timeout sch init seconds).state.sigterm
        = init.sigterm ∧
    (ruby_timeout_safe_timeout sch init seconds).state.sigint
        = init.sigint ∧
    (ruby_timeout_safe_timeout sch init seconds).state.registry = false := by
  cases hcs : coerce_timeout seconds with
  | error e =>
      unfold ruby_timeout_safe_timeout at h
      rw [hcs] at h
      unfold run_with_timeout at h
      simp at h
  | ok t =>
      unfold ruby_timeout_safe_timeout at h ⊢
      rw [hcs] at h ⊢
      by_cases hlt : t < 0
      · unfold run_with_timeout at h
        dsimp only at h
        rw [if_pos hlt] at h
        simp at h
      · cases hb1 : sch.sigterm_install_ok with
        | false =>
            unfold run_with_timeout at h
            dsimp only at h
            rw [if_neg hlt, hb1] at h
            simp at h
        | true =>
          cases hb2 : sch.sigint_install_ok with
          | false =>
              unfold run_with_timeout at h
              dsimp only at h
              rw [if_neg hlt, hb1, hb2] at h
              simp at h
          | true =>
            cases hb3 : sch.thread_create_ok with
            | false =>
                unfold run_with_timeout at h
                dsimp only at h
                rw [if_neg hlt, hb1, hb2, hb3] at h
                simp at h
            | true =>
                rw [run_ok_eval sch init t (not_lt.mp hlt) hb1 hb2 hb3]
                split
                · exact ⟨rfl, rfl, rfl⟩
                · cases _hb : sch.block <;> exact ⟨rfl, rfl, rfl⟩

/-- C6 witness: a successful invocation restores both dispositions and
clears the registry. -/
theorem C6_cleanup_roundtrip_witness :
    (ruby_timeout_safe_timeout ⟨true, true, true, .ok (.vint 4), false, false⟩
        ⟨.other 0, .other 1, false⟩ (.vint 5)).state.sigterm = .other 0 ∧
    (ruby_timeout_safe_timeout ⟨true, true, true, .ok (.vint 4), false, false⟩
        ⟨.other 0, .other 1, false⟩ (.vint 5)).state.sigint = .other 1 ∧
    (ruby_timeout_safe_timeout ⟨true, true, true, .ok (.vint 4), false, false⟩
        ⟨.other 0, .other 1, false⟩ (.vint 5)).state.registry = false :=
  C6_cleanup_roundtrip ⟨true, true, true, .ok (.vint 4), false, false⟩
    ⟨.other 0, .other 1, false⟩ (.vint 5)
    (Or.inl ⟨.vint 4, by decide⟩)

/-- C7: the claim fails on the source, and the source also contradicts
its own header comment ("supports handling large timeout values, up to
the maximum value of time_t").  Line 85 computes the deadline by plain
wrapping addition: for the current time 1 and the largest `time_t`
duration, the computed deadline wraps to the most negative `time_t` —
a time in the past, which makes the bounded wait expire immediately —
instead of saturating at the maximum representable time. -/
theorem C7_deadline_wraps :
    compute_deadline 1 longMax = longMin ∧
    compute_deadline 1 longMax < 1 ∧
    compute_deadline 1 longMax ≠ longMax := by decide

/-- C8: when the block raises and, by the time the watchdog is joined,
`timeout_occurred` or `signal_received` is set, the call raises the
timeout failure and the block's own jump tag is discarded: the flag
check of lines 185-188 precedes the `rb_jump_tag` of lines 191-193. -/
theorem C8_timeout_discards_work_failure (sch : Schedule) (init : SysState)
    (seconds : RubyValue) (t : Int) (tag : Nat)
    (hc : coerce_timeout seconds = .ok t) (ht : 0 ≤ t)
    (h1 : sch.sigterm_install_ok = true) (h2 : sch.sigint_install_ok = true)
    (h3 : sch.thread_create_ok = true)
    (hb : sch.block = .raised tag)
    (h4 : sch.watchdog_expires = true ∨ sch.signal_during_run = true) :
    ruby_timeout_safe_timeout sch init seconds
      = ⟨.timeoutError, ⟨init.sigterm, init.sigint, false⟩, true⟩ := by
  unfold ruby_timeout_safe_timeout
  rw [hc, run_ok_eval sch init t ht h1 h2 h3]
  rcases h4 with h | h <;> simp [h]

/-- C8 witness: a raising block is overridden by a received signal. -/
theorem C8_timeout_discards_work_failure_witness :
    coerce_timeout (.vint 3) = .ok 3 ∧
    ruby_timeout_safe_timeout ⟨true, true, true, .raised 6, false, true⟩
        ⟨.other 0, .other 1, false⟩ (.vint 3)
      = ⟨.timeoutError, ⟨.other 0, .other 1, false⟩, true⟩ :=
  ⟨by decide,
    C8_timeout_discards_work_failure ⟨true, true, true, .raised 6, false, true⟩
      ⟨.other 0, .other 1, false⟩ (.vint 3) 3 6 (by decide) (by decide)
      rfl rfl rfl rfl (Or.inr rfl)⟩

/-- C9: a nil duration is accepted, not rejected: `NIL_P` coerces nil to
the timeout value 0, which passes the negativity check; the deadline for
a zero timeout is the current instant, so the bounded wait can only
expire; when it does the call raises "execution expired", and only if
the block finished first (waking the watchdog before `ETIMEDOUT`) does
the call return the block's value. -/
theorem C9_nil_is_zero_deadline (sch : Schedule) (init : SysState)
    (v : RubyValue)
    (h1 : sch.sigterm_install_ok = true) (h2 : sch.sigint_install_ok = true)
    (h3 : sch.thread_create_ok = true) :
    coerce_timeout .vnil = .ok 0 ∧
    (∀ now : Int, longMin ≤ now → now ≤ longMax →
      compute_deadline now 0 = now) ∧
    (sch.watchdog_expires = true →
      (ruby_timeout_safe_timeout sch init .vnil).outcome = .timeoutError) ∧
    (sch.watchdog_expires = false → sch.signal_during_run = false →
      sch.block = .ok v →
      ruby_timeout_safe_timeout sch init .vnil
        = ⟨.success v, ⟨init.sigterm, init.sigint, false⟩, true⟩) := by
  refine ⟨rfl, ?_, ?_, ?_⟩
  · intro now hlo hhi
    unfold compute_deadline wrap64
    unfold longMin at hlo
    unfold longMax at hhi
    have e63 : (2 : Int) ^ 63 = 9223372036854775808 := by norm_num
    have e64 : (2 : Int) ^ 64 = 18446744073709551616 := by norm_num
    rw [e63] at hlo hhi ⊢
    rw [e64]
    omega
  · intro hw
    have := run_ok_eval sch init 0 le_rfl h1 h2 h3
    unfold ruby_timeout_safe_timeout
    rw [show coerce_timeout .vnil = .ok 0 from rfl, this]
    simp [hw]
  · intro hw hs hb
    have := run_ok_eval sch init 0 le_rfl h1 h2 h3
    unfold ruby_timeout_safe_timeout
    rw [show coerce_timeout .vnil = .ok 0 from rfl, this, hw, hs, hb]
    rfl

/-- C9 witness: the nil-duration behaviour at a concrete schedule where
the zero-second wait expires. -/
theorem C9_nil_is_zero_deadline_witness :
    coerce_timeout .vnil = .ok 0 ∧
    (∀ now : Int, longMin ≤ now → now ≤ longMax →
      compute_deadline now 0 = now) ∧
    ((true : Bool) = true →
      (ruby_timeout_safe_timeout ⟨true, true, true, .ok (.vint 1), true, false⟩
        ⟨.other 0, .other 1, false⟩ .vnil).outcome = .timeoutError) ∧
    ((true : Bool) = false → (false : Bool) = false →
      BlockResult.ok (.vint 1) = .ok (.vint 1) →
      ruby_timeout_safe_timeout ⟨true, true, true, .ok (.vint 1), true, false⟩
          ⟨.other 0, .other 1, false⟩ .vnil
        = ⟨.success (.vint 1), ⟨.other 0, .other 1, false⟩, true⟩) :=
  C9_nil_is_zero_deadline ⟨true, true, true, .ok (.vint 1), true, false⟩
    ⟨.other 0, .other 1, false⟩ (.vint 1) rfl rfl rfl

/-- C10: a numeric duration strictly between 0 and 1 is truncated toward
zero by the `NUM2LONG` coercion, so the whole invocation is literally
the invocation with the integer duration 0: a zero-second deadline, not
a sub-second timeout and not a rejection. -/
theorem C10_subsecond_truncates (q : ℚ) (sch : Schedule) (init : SysState)
    (h0 : 0 < q) (h1 : q < 1) :
    coerce_timeout (.vfloat q) = .ok 0 ∧
    ruby_timeout_safe_timeout sch init (.vfloat q)
      = ruby_timeout_safe_timeout sch init (.vint 0) := by
  have htr : truncTowardZero q = 0 := trunc_eq_zero q h0.le h1
  have hc : coerce_timeout (.vfloat q) = .ok 0 := by
    unfold coerce_timeout num2long
    dsimp only
    rw [htr, if_neg (by decide)]
  refine ⟨hc, ?_⟩
  unfold ruby_timeout_safe_timeout
  rw [hc, show coerce_timeout (.vint 0) = .ok 0 by decide]

/-- C10 witness: the duration 1/2 coerces to 0 and the invocation equals
the zero-duration invocation. -/
theorem C10_subsecond_truncates_witness :
    coerce_timeout (.vfloat (1 / 2)) = .ok 0 ∧
    ruby_timeout_safe_timeout ⟨true, true, true, .ok (.vint 7), false, false⟩
        ⟨.other 0, .other 1, false⟩ (.vfloat (1 / 2))
      = ruby_timeout_safe_timeout
          ⟨true, true, true, .ok (.vint 7), false, false⟩
          ⟨.other 0, .other 1, false⟩ (.vint 0) :=
  C10_subsecond_truncates (1 / 2)
    ⟨true, true, true, .ok (.vint 7), false, false⟩
    ⟨.other 0, .other 1, false⟩ one_half_pos one_half_lt_one

end RubyTimeoutSafe
